import Mathlib

/- Verification development for the EBQControl_Wifi MQTT session and protocol
   engine (React Native JS + Kotlin native module).

   Shallow embedding conventions:
   * JS numbers are `Option ℚ`: `some q` is a finite value (exact rational),
     `none` stands for NaN / ±Infinity (the sources only ever distinguish
     finite from non-finite, via `Number.isFinite`).
   * JS objects and `Map`s are association lists in insertion order;
     `Map.set` replaces in place, `Map.delete` removes the entry.
   * Timers and callbacks are explicit events of small-step functions;
     wall-clock instants (`Date.now()`) are `ℤ` milliseconds.
   * Strings are processed on their character lists so that all string
     functions compute by kernel reduction. -/

/-! ## Association-list helpers (JS `Map` / plain-object semantics) -/

/-- Lookup of the (unique) entry with the given key, JS `Map.get` /
property read. -/
def alistGet {κ α : Type} [DecidableEq κ] : List (κ × α) → κ → Option α
  | [], _ => none
  | (k, v) :: rest, i => if k = i then some v else alistGet rest i

/-- JS `Map.set` / `obj[k] = v`: replace in place if the key exists, else
append at the end. -/
def alistSet {κ α : Type} [DecidableEq κ] : List (κ × α) → κ → α → List (κ × α)
  | [], i, v => [(i, v)]
  | (k, w) :: rest, i, v =>
      if k = i then (k, v) :: rest else (k, w) :: alistSet rest i v

/-- JS `Map.delete`: remove the entry with the given key. -/
def alistDel {κ α : Type} [DecidableEq κ] : List (κ × α) → κ → List (κ × α)
  | [], _ => []
  | (k, w) :: rest, i => if k = i then rest else (k, w) :: alistDel rest i

/-- Update-or-insert with a merge function, the pattern
`store[id] = store[id] ? merge(store[id], v) : v` of the JS sources. -/
def alistUpd {κ α : Type} [DecidableEq κ] (merge : α → α → α) :
    List (κ × α) → κ → α → List (κ × α)
  | [], i, v => [(i, v)]
  | (k, w) :: rest, i, v =>
      if k = i then (k, merge w v) :: rest else (k, w) :: alistUpd merge rest i v

/-! ## Character and string helpers -/

/-- Numeric value of a list of ASCII digits (most significant first). -/
def digitsToNat (cs : List Char) : ℕ :=
  cs.foldl (fun a c => a * 10 + (c.toNat - 48)) 0

/-- Whether a character list starts with an ASCII digit. -/
def headIsDigit : List Char → Bool
  | c :: _ => c.isDigit
  | [] => false

/-- JS `String.prototype.trim` on the character list. -/
def trimChars (cs : List Char) : List Char :=
  ((cs.dropWhile Char.isWhitespace).reverse.dropWhile Char.isWhitespace).reverse

/-- JS `String.prototype.trim`. -/
def jsTrim (s : String) : String := String.mk (trimChars s.data)

/-- JS `String.prototype.toUpperCase` (ASCII range, which is all the error
texts matched by the sources use). -/
def upperStr (s : String) : String := String.mk (s.data.map Char.toUpper)

/-- JS `String.prototype.includes`: substring containment. -/
def containsSub (hay needle : String) : Bool :=
  hay.data.tails.any (fun t => needle.data.isPrefixOf t)

/-- `sanitizeName` of MqttDeviceGridScreen.js: trim, strip U+FFFD and
control characters, trim again; empty result means "do not apply". -/
def sanitizeName (s : String) : String :=
  let t := trimChars s.data
  let cleaned := t.filter (fun c => !(c.toNat = 0xFFFD || c.toNat ≤ 0x1F || c.toNat = 0x7F))
  String.mk (trimChars cleaned)

/-- The synthetic-placeholder test `/^Device\s+\d+$/i` of the JS source. -/
def isDefaultDeviceName (s : String) : Bool :=
  match s.data.map Char.toLower with
  | 'd' :: 'e' :: 'v' :: 'i' :: 'c' :: 'e' :: rest =>
      let sp := rest.takeWhile Char.isWhitespace
      let ds := rest.dropWhile Char.isWhitespace
      !sp.isEmpty && !ds.isEmpty && ds.all Char.isDigit
  | _ => false

/-- Helper for `matchChanKey`: scan for the first `C`/`c` followed by a
digit, as the regex `/C(\d+)/i` does. -/
def mckAux : List Char → Option ℕ
  | [] => none
  | c :: rest =>
      if (c = 'C' || c = 'c') && headIsDigit rest then
        some (digitsToNat (rest.takeWhile Char.isDigit))
      else mckAux rest

/-- The channel-key pattern `String(k).match(/C(\d+)/i)` used throughout
the screen: first `C` (case-insensitive) followed by digits. -/
def matchChanKey (s : String) : Option ℕ := mckAux s.data

/-- JS `parseInt(s, 10)`: skip leading whitespace, optional sign, then the
longest digit run; NaN (`none`) when no digit follows. -/
def parseIntJS (s : String) : Option ℤ :=
  let cs := s.data.dropWhile Char.isWhitespace
  match cs with
  | '-' :: r =>
      let ds := r.takeWhile Char.isDigit
      if ds.isEmpty then none else some (-(digitsToNat ds : ℤ))
  | '+' :: r =>
      let ds := r.takeWhile Char.isDigit
      if ds.isEmpty then none else some ((digitsToNat ds : ℤ))
  | _ =>
      let ds := cs.takeWhile Char.isDigit
      if ds.isEmpty then none else some ((digitsToNat ds : ℤ))

/-! ## JS values and number coercions -/

/-- A JSON-ish JS value as the codec sees it.  `num none` is a non-finite
number (NaN / ±Infinity); `undef` is `undefined` (a missing property). -/
inductive JVal : Type
  | num (v : Option ℚ)
  | str (s : String)
  | jbool (b : Bool)
  | jnull
  | undef
  | arr (xs : List JVal)
  | obj (fields : List (String × JVal))

/-- Strict whole-string numeric parse used by JS `Number("...")`: optional
sign, digits with optional fraction; empty (after trim) is 0.  Exponent and
hex forms are not modeled (never produced by the devices). -/
def parseNumberStrict (s : String) : Option ℚ :=
  let t := trimChars s.data
  if t.isEmpty then some 0 else
  let core := fun (cs : List Char) =>
    let ip := cs.takeWhile Char.isDigit
    let rest := cs.drop ip.length
    match rest with
    | [] => if ip.isEmpty then none else some ((digitsToNat ip : ℚ))
    | '.' :: fr =>
        if fr.all Char.isDigit && !(ip.isEmpty && fr.isEmpty) then
          some ((digitsToNat ip : ℚ) + (digitsToNat fr : ℚ) / (10 : ℚ) ^ fr.length)
        else none
    | _ => none
  match t with
  | '-' :: r => (core r).map (fun q => -q)
  | '+' :: r => core r
  | _ => core t

/-- JS `Number(v)` coercion for the value shapes the codec can meet.
For a one-element array JS stringifies the element and re-parses, which for
the shapes below agrees with coercing the element itself (deeper nesting is
not modeled and yields NaN). -/
def jsToNumber : JVal → Option ℚ
  | .num v => v
  | .str s => parseNumberStrict s
  | .jbool b => some (if b then 1 else 0)
  | .jnull => some 0
  | .undef => none
  | .arr [] => some 0
  | .arr [.num v] => v
  | .arr [.str s] => parseNumberStrict s
  | .arr [.jnull] => some 0
  | .arr [.undef] => some 0
  | .arr [_] => none
  | .arr (_ :: _ :: _) => none
  | .obj _ => none

/-- Value of the first regex match of `-?\d+(\.\d+)?` (JS regex) starting at a
digit run (the argument starts with a digit). -/
def matchedVal (cs : List Char) : ℚ :=
  let ip := cs.takeWhile Char.isDigit
  let rest := cs.drop ip.length
  match rest with
  | '.' :: fr =>
      let fd := fr.takeWhile Char.isDigit
      if fd.isEmpty then (digitsToNat ip : ℚ)
      else (digitsToNat ip : ℚ) + (digitsToNat fd : ℚ) / (10 : ℚ) ^ fd.length
  | _ => (digitsToNat ip : ℚ)

/-- Left-to-right scan for the first match of `-?\d+(\.\d+)?` (JS regex). -/
def fnmAux : List Char → Option ℚ
  | [] => none
  | '-' :: rest =>
      if headIsDigit rest then some (-(matchedVal rest)) else fnmAux rest
  | c :: rest =>
      if c.isDigit then some (matchedVal (c :: rest)) else fnmAux rest

/-- First numeric substring of a string, the regex-match step of
`normalizeNumber`. -/
def firstNumberMatch (s : String) : Option ℚ := fnmAux s.data

/-- `normalizeNumber` of MqttDeviceGridScreen.js: a number is returned
as-is, a string yields its first numeric substring (else NaN), an array
yields `Number(v[0])` (NaN when empty), anything else `Number(v)`. -/
def normalizeNumber : JVal → Option ℚ
  | .num v => v
  | .str s => firstNumberMatch s
  | .arr [] => none
  | .arr (x :: _) => jsToNumber x
  | v => jsToNumber v

/-- The `v.current1 ?? v.a ?? v.A ?? v.L1 ?? v.l1` chains: first property
present with a non-null value; all missing yields `undefined`. -/
def firstProp (fs : List (String × JVal)) : List String → JVal
  | [] => .undef
  | k :: ks =>
      match alistGet fs k with
      | some .jnull => firstProp fs ks
      | some v => v
      | none => firstProp fs ks

/-- `parse3PhaseValue` of MqttDeviceGridScreen.js: a finite number is
broadcast to the three legs; an array of length ≥ 3 yields the three first
legs when all are finite; an object yields the per-leg properties when all
are finite; anything else (including a short array, whose per-leg
properties are all `undefined`) is rejected. -/
def parse3PhaseValue (v : JVal) : Option (ℚ × ℚ × ℚ) :=
  match v with
  | .num (some q) => some (q, q, q)
  | .arr (x :: y :: z :: _) =>
      match normalizeNumber x, normalizeNumber y, normalizeNumber z with
      | some a, some b, some c => some (a, b, c)
      | _, _, _ => none
  | .obj fs =>
      match normalizeNumber (firstProp fs ["current1", "a", "A", "L1", "l1"]),
            normalizeNumber (firstProp fs ["current2", "b", "B", "L2", "l2"]),
            normalizeNumber (firstProp fs ["current3", "c", "C", "L3", "l3"]) with
      | some a, some b, some c => some (a, b, c)
      | _, _, _ => none
  | _ => none

/-! ## Current formatting -/

/-- Floor of a non-negative rational as a natural number. -/
def ratFloorNonneg (q : ℚ) : ℕ := q.num.toNat / q.den

/-- JS `Number.prototype.toFixed(2)` on an exact rational: sign taken from
the argument, magnitude rounded to the nearest hundredth with ties away
from zero (the ECMA rule "ties pick the larger n" applied to `|x|`). -/
def toFixed2 (x : ℚ) : String :=
  let sgn := if x < 0 then "-" else ""
  let n := ratFloorNonneg (|x| * 100 + 1 / 2)
  let ip := n / 100
  let fr := n % 100
  sgn ++ toString ip ++ "." ++ (if fr < 10 then "0" ++ toString fr else toString fr)

/-- `formatCurrentA` of MqttDeviceGridScreen.js: non-finite renders "-",
a small negative OFF marker in [-0.1, 0) renders "0.00", anything else is
rendered with two decimals. -/
def formatCurrentA (v : Option ℚ) : String :=
  match v with
  | none => "-"
  | some n => if n < 0 ∧ -(1 : ℚ) / 10 ≤ n then "0.00" else toFixed2 n

/-! ## Channel state (tags) and batched patches -/

/-- One channel entry of the `tags` state map.  `current1..3` are `none`
for entries created by `default1P` (the JS object has no such keys). -/
structure Tag where
  id : ℤ
  status : String
  current : String
  current1 : Option String
  current2 : Option String
  current3 : Option String
  rawStatus : ℕ
  seen : Bool
  tagName : String
  currentRating : ℚ
  sensitivity : ℚ
deriving DecidableEq, Repr

/-- `default1P` of MqttDeviceGridScreen.js. -/
def default1P (id : ℤ) : Tag :=
  { id := id, status := "UNKNOWN", current := "-",
    current1 := none, current2 := none, current3 := none,
    rawStatus := 0, seen := false,
    tagName := "Device " ++ toString id, currentRating := 0, sensitivity := 1 }

/-- `default3P` of MqttDeviceGridScreen.js. -/
def default3P (id : ℤ) : Tag :=
  { id := id, status := "UNKNOWN", current := "-",
    current1 := some "-", current2 := some "-", current3 := some "-",
    rawStatus := 0, seen := false,
    tagName := "Device " ++ toString id, currentRating := 0, sensitivity := 1 }

/-- A queued per-channel patch (the per-channel object of `enqueueTagPatch`):
the marker fields `__cur1p` / `__cur3p` plus the plain fields the message
handlers ever put in the rest of a patch.  Decoded marker values are
always finite (the decoder drops non-finite readings). -/
structure TagDelta where
  cur1p : Option ℚ := none
  cur3p : Option (ℚ × ℚ × ℚ) := none
  status : Option String := none
  tagName : Option String := none
  seen : Option Bool := none
  currentRating : Option ℚ := none
  sensitivity : Option ℚ := none
deriving DecidableEq, Repr

/-- The spread merge `{...store[id], ...partialPatch}`: fields present in
the newer patch win, field by field. -/
def mergeDelta (f g : TagDelta) : TagDelta :=
  { cur1p := g.cur1p <|> f.cur1p,
    cur3p := g.cur3p <|> f.cur3p,
    status := g.status <|> f.status,
    tagName := g.tagName <|> f.tagName,
    seen := g.seen <|> f.seen,
    currentRating := g.currentRating <|> f.currentRating,
    sensitivity := g.sensitivity <|> f.sensitivity }

/-- Whether the rest-spread (fields other than the current markers) is
non-empty, i.e. `Object.keys(rest).length > 0`. -/
def restTouches (d : TagDelta) : Bool :=
  d.status.isSome || d.tagName.isSome || d.seen.isSome ||
  d.currentRating.isSome || d.sensitivity.isSome

/-- Whether the flush body allocates a new object for this patch, i.e. the
JS identity test `out === old` fails. -/
def deltaTouches (d : TagDelta) : Bool :=
  d.cur1p.isSome || d.cur3p.isSome || restTouches d

/-- `toggleLockRef.current.get(id) || 0`. -/
def lockGet (locks : List (ℤ × ℤ)) (id : ℤ) : ℤ := (alistGet locks id).getD 0

/-- The flush body of `enqueueTagPatch` applied to one channel: derive the
current strings and (unless the toggle lock is active) the status from the
`__cur1p` / `__cur3p` markers, then spread the remaining plain fields. -/
def applyDelta (now : ℤ) (locks : List (ℤ × ℤ)) (id : ℤ) (old : Tag)
    (d : TagDelta) : Tag :=
  let out := old
  let out :=
    match d.cur1p with
    | some v =>
        let statusFromCur := if v < 0 then "OFF" else "ON"
        { out with
            current := formatCurrentA (some v), seen := true,
            status := if now < lockGet locks id then out.status else statusFromCur }
    | none => out
  let out :=
    match d.cur3p with
    | some (a, b, c) =>
        let statusFromCur := if a < 0 ∨ b < 0 ∨ c < 0 then "OFF" else "ON"
        { out with
            seen := true,
            current := formatCurrentA (some a),
            current1 := some (formatCurrentA (some a)),
            current2 := some (formatCurrentA (some b)),
            current3 := some (formatCurrentA (some c)),
            status := if now < lockGet locks id then out.status else statusFromCur }
    | none => out
  { out with
      status := d.status.getD out.status,
      tagName := d.tagName.getD out.tagName,
      seen := d.seen.getD out.seen,
      currentRating := d.currentRating.getD out.currentRating,
      sensitivity := d.sensitivity.getD out.sensitivity }

/-- The merge phase of `enqueueTagPatch`: fold a message patch into the
pending store, merging per channel with the newer fields winning. -/
def enqueueTagPatch (store : List (ℤ × TagDelta)) :
    List (ℤ × TagDelta) → List (ℤ × TagDelta)
  | [] => store
  | (i, d) :: rest => enqueueTagPatch (alistUpd mergeDelta store i d) rest

/-- The flush callback of `enqueueTagPatch`: apply every queued channel
patch against the snapshot `prev` (the JS body reads `prev[id]`, not the
partially updated map), writing only channels whose patch allocates a new
object. -/
def flushPatchBatch (now : ℤ) (locks : List (ℤ × ℤ)) (prev : List (ℤ × Tag))
    (batch : List (ℤ × TagDelta)) : List (ℤ × Tag) :=
  batch.foldl
    (fun next p =>
      let id := p.1
      let old := (alistGet prev id).getD (if 201 ≤ id then default3P id else default1P id)
      if deltaTouches p.2 then alistSet next id (applyDelta now locks id old p.2)
      else next)
    prev

/-- `clearTagsToUnknown` of MqttDeviceGridScreen.js: reset every existing
channel entry to unknown/unseen; ids 201..224 also reset the per-leg
current strings. -/
def clearTagsToUnknown (tags : List (ℤ × Tag)) : List (ℤ × Tag) :=
  tags.map (fun p =>
    let id := p.1
    let t := p.2
    if 201 ≤ id ∧ id ≤ 224 then
      (id, { t with status := "UNKNOWN", current := "-",
                    current1 := some "-", current2 := some "-", current3 := some "-",
                    rawStatus := 0, seen := false })
    else
      (id, { t with status := "UNKNOWN", current := "-", rawStatus := 0, seen := false }))

/-- One entry of the inbound current-map branch of `connectNow.onMessage`:
channel id from the `C<digits>` pattern (else `parseInt`); single-phase ids
1..120 take any finite `normalizeNumber` reading, three-phase ids 201..224
take any `parse3PhaseValue` triple; everything else is skipped. -/
def decodeCurrentEntry (k : String) (v : JVal) : Option (ℤ × TagDelta) :=
  let idOpt : Option ℤ :=
    match matchChanKey k with
    | some n => some (n : ℤ)
    | none => parseIntJS k
  match idOpt with
  | none => none
  | some id =>
      if 1 ≤ id ∧ id ≤ 120 then
        match normalizeNumber v with
        | some q => some (id, { cur1p := some q })
        | none => none
      else if 201 ≤ id ∧ id ≤ 224 then
        match parse3PhaseValue v with
        | some t => some (id, { cur3p := some t })
        | none => none
      else none

/-- The whole current-map branch: decode every entry and merge the results
into one patch keyed by channel id (the `put` helper). -/
def decodeCurrentMap (entries : List (String × JVal)) : List (ℤ × TagDelta) :=
  entries.foldl
    (fun patch p =>
      match decodeCurrentEntry p.1 p.2 with
      | some (id, d) => alistUpd mergeDelta patch id d
      | none => patch)
    []

/-! ## Name writes, pending operations and name locks -/

/-- The mutable state touched by a name write and its confirmation:
`pendingNameRef` (channel → expected value and expiry), `nameLockRef`
(channel → lock expiry), plus the observable outputs accumulated so far
(toast messages, name-bank re-read requests, write publishes). -/
structure NameOpState where
  pendingName : List (ℤ × (String × ℤ))
  nameLock : List (ℤ × ℤ)
  toasts : List String
  nameReads : List String
  pubs : List String
deriving DecidableEq, Repr

/-- The empty initial state. -/
def emptyNameOpState : NameOpState :=
  { pendingName := [], nameLock := [], toasts := [], nameReads := [], pubs := [] }

/-- Which name bank a channel is read back from:
`(channel >= 1 && channel <= 80) ? "Name1" : "Name2"`. -/
def nameBankFor (ch : ℤ) : String :=
  if 1 ≤ ch ∧ ch ≤ 80 then "Name1" else "Name2"

/-- `publishSetName` of MqttDeviceGridScreen.js (state-relevant part, with
the connected guard and valid cpid/deviceId assumed): trim the name; an
empty name is rejected with a toast; otherwise record the pending
operation and the name lock, both expiring 8000 ms from now, publish the
object-form and array-form write payloads, and toast. -/
def publishSetNameStep (now ch : ℤ) (newName : String) (s : NameOpState) :
    NameOpState :=
  let nameStr := jsTrim newName
  if nameStr = "" then { s with toasts := s.toasts ++ ["Invalid channel/name"] }
  else
    { s with
        pendingName := alistSet s.pendingName ch (nameStr, now + 8000),
        nameLock := alistSet s.nameLock ch (now + 8000),
        pubs := s.pubs ++ ["SetNameObjForm C" ++ toString ch, "SetNameArrForm C" ++ toString ch],
        toasts := s.toasts ++ ["Set Name C" ++ toString ch] }

/-- One entry of the inbound name-map branch of `connectNow.onMessage`:
sanitized non-empty, non-placeholder names only; a matching unexpired
pending operation is cleared, its lock is zeroed and a confirmation toast
is raised; a non-matching name inside the pending window, or any name
inside the lock window, is ignored; otherwise the name is applied. -/
def nameMapEntry (now : ℤ) (s : NameOpState) (k v : String) :
    NameOpState × Option (ℤ × TagDelta) :=
  match matchChanKey k with
  | none => (s, none)
  | some nid =>
      let id : ℤ := (nid : ℤ)
      let gotName := sanitizeName v
      if gotName = "" then (s, none)
      else if isDefaultDeviceName gotName then (s, none)
      else
        match alistGet s.pendingName id with
        | some pv =>
            if now ≤ pv.2 then
              if gotName = jsTrim pv.1 then
                ({ s with
                     pendingName := alistDel s.pendingName id,
                     nameLock := alistSet s.nameLock id 0,
                     toasts := s.toasts ++ ["Name saved: C" ++ toString id] },
                 some (id, { tagName := some gotName, seen := some true }))
              else (s, none)
            else
              if now < (alistGet s.nameLock id).getD 0 then (s, none)
              else (s, some (id, { tagName := some gotName, seen := some true }))
        | none =>
            if now < (alistGet s.nameLock id).getD 0 then (s, none)
            else (s, some (id, { tagName := some gotName, seen := some true }))

/-- The whole inbound name-map branch: process every entry, merging the
produced tag patches with the `put` helper. -/
def nameMapStep (now : ℤ) (entries : List (String × String)) (s : NameOpState) :
    NameOpState × List (ℤ × TagDelta) :=
  entries.foldl
    (fun acc e =>
      let r := nameMapEntry now acc.1 e.1 e.2
      (r.1, match r.2 with
            | some (id, d) => alistUpd mergeDelta acc.2 id d
            | none => acc.2))
    (s, [])

/-- One entry of the `Set Name` command-echo branch of
`connectNow.onMessage`: apply the sanitized name and re-arm the name lock
for 8000 ms; the pending operation is not touched. -/
def setNameEchoEntry (now : ℤ) (s : NameOpState) (k v : String) :
    NameOpState × Option (ℤ × TagDelta) :=
  match matchChanKey k with
  | none => (s, none)
  | some nid =>
      let id : ℤ := (nid : ℤ)
      let newName := sanitizeName v
      if newName = "" then (s, none)
      else
        ({ s with nameLock := alistSet s.nameLock id (now + 8000) },
         some (id, { tagName := some newName, seen := some true }))

/-- The whole `Set Name` echo branch over the echo object entries. -/
def setNameEchoStep (now : ℤ) (entries : List (String × String))
    (s : NameOpState) : NameOpState × List (ℤ × TagDelta) :=
  entries.foldl
    (fun acc e =>
      let r := setNameEchoEntry now acc.1 e.1 e.2
      (r.1, match r.2 with
            | some (id, d) => alistUpd mergeDelta acc.2 id d
            | none => acc.2))
    (s, [])

/-- The 8200 ms timeout fallback scheduled by `publishSetName`: if the
pending operation is still present, clear it, zero the lock, toast the
timeout and issue a name-bank re-read. -/
def nameTimeoutStep (ch : ℤ) (s : NameOpState) : NameOpState :=
  match alistGet s.pendingName ch with
  | none => s
  | some _ =>
      { s with
          pendingName := alistDel s.pendingName ch,
          nameLock := alistSet s.nameLock ch 0,
          toasts := s.toasts ++ ["Name save timeout: C" ++ toString ch],
          nameReads := s.nameReads ++ [nameBankFor ch] }

/-! ## Reconnect backoff (MqttManager.js) -/

/-- The delay formula of `scheduleReconnect`:
`Math.min(30000, 1000 * Math.pow(2, retryCount))`. -/
def backoffDelay (retryCount : ℕ) : ℕ := min 30000 (1000 * 2 ^ retryCount)

/-- The manager state relevant to reconnect backoff. -/
structure MgrState where
  retryCount : ℕ
  reconnectTimer : Option ℕ
deriving DecidableEq, Repr

/-- Backoff-relevant events of MqttManager.js.  `connectStart` is the
entry of `connectDevice` (which runs `retryCount = 0; clearTimer()`);
`connectFail` is its catch path and `disconnectEvent` the DISCONNECTED
status callback, both of which run `scheduleReconnect`; `timerFire` is the
reconnect timer callback (`retryCount += 1`, then it re-enters
`connectDevice`, a separate `connectStart` event). -/
inductive MgrEv
  | connectStart
  | connectFail
  | disconnectEvent
  | timerFire
  | connectSuccess
deriving DecidableEq, Repr

/-- One step of the backoff state machine; the second component is the
delay scheduled by `scheduleReconnect`, when one is. -/
def mgrStep (s : MgrState) : MgrEv → MgrState × Option ℕ
  | .connectStart => ({ retryCount := 0, reconnectTimer := none }, none)
  | .connectFail =>
      let d := backoffDelay s.retryCount
      ({ s with reconnectTimer := some d }, some d)
  | .disconnectEvent =>
      let d := backoffDelay s.retryCount
      ({ s with reconnectTimer := some d }, some d)
  | .timerFire => ({ retryCount := s.retryCount + 1, reconnectTimer := none }, none)
  | .connectSuccess => (s, none)

/-- The sequence of reconnect delays scheduled along an event trace. -/
def mgrDelays (s : MgrState) : List MgrEv → List ℕ
  | [] => []
  | e :: rest =>
      let r := mgrStep s e
      match r.2 with
      | some d => d :: mgrDelays r.1 rest
      | none => mgrDelays r.1 rest

/-! ## TLS auto-negotiation (`authenticateForAddDevice` of MqttManager.js) -/

/-- `detectTlsByPort`: ports 8883 and 8812 choose TLS. -/
def detectTlsByPort (port : ℤ) : Bool := port = 8883 || port = 8812

/-- `shouldFlipTls`: error texts that usually mean a TLS-vs-TCP protocol
mismatch, matched case-insensitively on the raw error string. -/
def shouldFlipTls (err : String) : Bool :=
  let raw := upperStr err
  containsSub raw "UNRECOGNIZED PACKET" ||
  containsSub raw "SSLHANDSHAKE" ||
  containsSub raw "HANDSHAKE" ||
  containsSub raw "EOFEXCEPTION" ||
  containsSub raw "CONNECTION CLOSED"

/-- The first-attempt security mode: an explicit caller preference wins,
else it is inferred from the port. -/
def initialTls (port : ℤ) (useTlsInput : Option Bool) : Bool :=
  match useTlsInput with
  | some b => b
  | none => detectTlsByPort port

/-- `authenticateForAddDevice`, abstracted over the outcome of one
connect-and-subscribe attempt per TLS flag (`tryOnce`).  Returns the list
of TLS flags attempted, in order, and either the detected TLS mode (on
success) or the propagated error.  Port 1883 never auto-flips. -/
def authenticateForAddDevice (tryOnce : Bool → Except String Unit)
    (port : ℤ) (useTlsInput : Option Bool) : List Bool × Except String Bool :=
  let useTls := initialTls port useTlsInput
  match tryOnce useTls with
  | .ok _ => ([useTls], .ok useTls)
  | .error e1 =>
      if port = 1883 then ([useTls], .error e1)
      else if shouldFlipTls e1 then
        match tryOnce (!useTls) with
        | .ok _ => ([useTls, !useTls], .ok (!useTls))
        | .error e2 => ([useTls, !useTls], .error e2)
      else ([useTls], .error e1)

/-! ## Fast-interval keep-alive (MqttDeviceGridScreen.js) -/

/-- The screen state relevant to the fast-interval keep-alive:
connection status, the one-shot guards and the 58 s timer
(`fastTimerRef`, carrying its delay in ms when armed). -/
structure FastState where
  conn : String
  didRequestCfg : Bool
  didSendFast : Bool
  fastTimer : Option ℕ
deriving DecidableEq, Repr

/-- Keep-alive-relevant events: the SUBSCRIBED status callback, a firing
of the 58 s timer, an unsolicited DISCONNECTED status, and the explicit
`disconnectAndStop` teardown. -/
inductive FastEv
  | subscribedStatus
  | fastTimerFire
  | disconnectedStatus
  | screenDisconnect
deriving DecidableEq, Repr

/-- One step; the second component counts fast-interval publishes emitted
during the step (each send goes through the `publishCfg` connected
guard). -/
def fastStep (s : FastState) : FastEv → FastState × ℕ
  | .subscribedStatus =>
      let s1 := { s with conn := "connected" }
      if s1.didRequestCfg then (s1, 0)
      else
        let s2 := { s1 with didRequestCfg := true, fastTimer := none }
        let r :=
          if s2.didSendFast then (s2, 0)
          else
            let s3 := { s2 with didSendFast := true }
            (s3, if s3.conn = "connected" then 1 else 0)
        ({ r.1 with fastTimer := some 58000 }, r.2)
  | .fastTimerFire =>
      match s.fastTimer with
      | none => (s, 0)
      | some _ =>
          if s.conn ≠ "connected" then ({ s with fastTimer := none }, 0)
          else ({ s with fastTimer := some 58000 }, 1)
  | .disconnectedStatus => ({ s with conn := "disconnected" }, 0)
  | .screenDisconnect =>
      ({ conn := "disconnected", didRequestCfg := false,
         didSendFast := false, fastTimer := none }, 0)

/-! ## Publish guards and the native module -/

/-- A transport publish request as handed to `publishMqtt`. -/
structure PubReq where
  topic : String
  payload : String
  qos : ℕ
  retained : Bool
deriving DecidableEq, Repr

/-- `publishControl`: hard connected guard, then QoS-1 publish to the
slash topic; `none` means the call returned without doing anything. -/
def publishControl (connStatus tSlash payload : String) : Option PubReq :=
  if connStatus ≠ "connected" then none
  else if tSlash = "" then none
  else some { topic := tSlash, payload := payload, qos := 1, retained := false }

/-- `publishCfg`: same guards, QoS-1 publish. -/
def publishCfg (connStatus tSlash payload : String) : Option PubReq :=
  if connStatus ≠ "connected" then none
  else if tSlash = "" then none
  else some { topic := tSlash, payload := payload, qos := 1, retained := false }

/-- `publishWrite`: same guards, QoS-0 publish. -/
def publishWrite (connStatus tSlash payload : String) : Option PubReq :=
  if connStatus ≠ "connected" then none
  else if tSlash = "" then none
  else some { topic := tSlash, payload := payload, qos := 0, retained := false }

/-- The connected flag of the singleton Paho client held by
MqttNativeModule.kt; `none` models `client == null`. -/
structure NativeClientState where
  isConnected : Bool
deriving DecidableEq, Repr

/-- Outcome of a native bridge call: a resolved promise carrying the
transport action performed, or a rejection with code and message. -/
inductive NativeOutcome (α : Type)
  | resolved (a : α)
  | rejected (code msg : String)
deriving DecidableEq, Repr

/-- `MqttNativeModule.subscribe`: reject with MQTT_NOT_CONNECTED unless a
connected client exists, else perform the subscribe. -/
def nativeSubscribe (client : Option NativeClientState) (topic : String)
    (qos : ℕ) : NativeOutcome (String × ℕ) :=
  match client with
  | none => .rejected "MQTT_NOT_CONNECTED" "Client not connected"
  | some c =>
      if !c.isConnected then .rejected "MQTT_NOT_CONNECTED" "Client not connected"
      else .resolved (topic, qos)

/-- `MqttNativeModule.publish`: reject with MQTT_NOT_CONNECTED unless a
connected client exists, else publish with the QoS coerced into 0..2. -/
def nativePublish (client : Option NativeClientState) (topic payload : String)
    (qos : ℤ) (retained : Bool) : NativeOutcome PubReq :=
  match client with
  | none => .rejected "MQTT_NOT_CONNECTED" "Client not connected"
  | some c =>
      if !c.isConnected then .rejected "MQTT_NOT_CONNECTED" "Client not connected"
      else .resolved { topic := topic, payload := payload,
                       qos := (max 0 (min 2 qos)).toNat, retained := retained }

/-! ## Client registry (MqttNativeClient.js `instanceMap` routing) -/

/-- `instanceMap.set(clientId, this)` run by the `MqttClient` constructor:
JS `Map` insertion order, re-setting an id keeps its position. -/
def registerClient {α : Type} (m : List (String × α)) (k : String) (v : α) :
    List (String × α) :=
  alistSet m k v

/-- `getActiveInstance`: the most recently registered live instance
(last in `Map` iteration order), `none` when the registry is empty. -/
def getActiveInstance {α : Type} (m : List (String × α)) : Option α :=
  m.getLast?.map Prod.snd

/-- The module-level event listeners' routing step:
`clientId ? instanceMap.get(clientId) : getActiveInstance()`, with events
routed to no instance (`none`) dropped.  A JS falsy id (absent or the
empty string) falls back to the most recent instance. -/
def routeEvent {α : Type} (m : List (String × α)) (clientId : Option String) :
    Option α :=
  match clientId with
  | some cid => if cid = "" then getActiveInstance m else alistGet m cid
  | none => getActiveInstance m

/-! ## Shared lemmas -/

/-- Self-merge of an optional field is the identity. -/
theorem optOrSelf {α : Type} (o : Option α) : (o <|> o) = o := by
  cases o <;> rfl

/-- Merging a queued patch with itself changes nothing (field-wise
last-write-wins on identical fields). -/
theorem mergeDelta_self (d : TagDelta) : mergeDelta d d = d := by
  cases d
  simp [mergeDelta, optOrSelf]

/-- Updating under a fresh key appends the entry. -/
theorem alistUpd_notmem {κ α : Type} [DecidableEq κ] (merge : α → α → α)
    (s : List (κ × α)) (i : κ) (d : α) (h : i ∉ s.map Prod.fst) :
    alistUpd merge s i d = s ++ [(i, d)] := by
  induction s with
  | nil => rfl
  | cons p rest ih =>
      simp only [List.map_cons, List.mem_cons] at h
      push_neg at h
      simp [alistUpd, Ne.symm h.1, ih h.2]

/-- Updating a key that already holds the same value with a merge that is
idempotent on that value changes nothing. -/
theorem alistUpd_get_self {κ α : Type} [DecidableEq κ] (merge : α → α → α)
    (s : List (κ × α)) (i : κ) (d : α) (hget : alistGet s i = some d)
    (hm : merge d d = d) : alistUpd merge s i d = s := by
  induction s with
  | nil => simp [alistGet] at hget
  | cons p rest ih =>
      by_cases hk : p.1 = i
      · have : p.2 = d := by
          cases p
          simp_all [alistGet]
        cases p
        subst hk
        simp_all [alistUpd, alistGet]
      · cases p
        simp_all [alistUpd, alistGet]

/-- The unique entry of a key-nodup association list is what lookup
finds. -/
theorem alistGet_of_nodup_mem {κ α : Type} [DecidableEq κ]
    (s : List (κ × α)) (p : κ × α) (hnd : (s.map Prod.fst).Nodup)
    (hmem : p ∈ s) : alistGet s p.1 = some p.2 := by
  induction s with
  | nil => simp at hmem
  | cons q rest ih =>
      simp only [List.map_cons, List.nodup_cons] at hnd
      rcases List.mem_cons.mp hmem with h | h
      · subst h
        obtain ⟨k, v⟩ := p
        simp [alistGet]
      · have hkeys : p.1 ∈ rest.map Prod.fst := List.mem_map_of_mem Prod.fst h
        have hne : q.1 ≠ p.1 := by
          intro he
          apply hnd.1
          rw [he]
          exact hkeys
        obtain ⟨k, v⟩ := q
        simp only [alistGet]
        rw [if_neg hne]
        exact ih hnd.2 h

/-- Enqueuing a patch whose keys are fresh and mutually distinct appends
it verbatim. -/
theorem enqueueTagPatch_disjoint (P : List (ℤ × TagDelta)) :
    ∀ s : List (ℤ × TagDelta), (P.map Prod.fst).Nodup →
    (∀ i ∈ P.map Prod.fst, i ∉ s.map Prod.fst) →
    enqueueTagPatch s P = s ++ P := by
  induction P with
  | nil => intro s _ _; simp [enqueueTagPatch]
  | cons p rest ih =>
      intro s hnd hdisj
      cases p with
      | mk i d =>
          simp only [List.map_cons, List.nodup_cons] at hnd
          have hfresh : i ∉ s.map Prod.fst := hdisj i (by simp)
          have step : alistUpd mergeDelta s i d = s ++ [(i, d)] :=
            alistUpd_notmem mergeDelta s i d hfresh
          have hdisj2 : ∀ j ∈ rest.map Prod.fst, j ∉ (s ++ [(i, d)]).map Prod.fst := by
            intro j hj
            simp only [List.map_append, List.mem_append, List.map_cons, List.map_nil,
              List.mem_singleton]
            push_neg
            exact ⟨hdisj j (by simp [hj]), fun he => hnd.1 (he ▸ hj)⟩
          calc enqueueTagPatch s ((i, d) :: rest)
              = enqueueTagPatch (s ++ [(i, d)]) rest := by
                simp [enqueueTagPatch, step]
            _ = (s ++ [(i, d)]) ++ rest := ih (s ++ [(i, d)]) hnd.2 hdisj2
            _ = s ++ ((i, d) :: rest) := by simp

/-- Enqueuing into an empty store is the identity on a key-nodup patch. -/
theorem enqueueTagPatch_nil (P : List (ℤ × TagDelta))
    (hnd : (P.map Prod.fst).Nodup) : enqueueTagPatch [] P = P := by
  simpa using enqueueTagPatch_disjoint P [] hnd (by simp)

/-- Enqueuing a patch into a store that already holds every one of its
entries changes nothing. -/
theorem enqueueTagPatch_id (P : List (ℤ × TagDelta)) :
    ∀ s : List (ℤ × TagDelta), (∀ p ∈ P, alistGet s p.1 = some p.2) →
    enqueueTagPatch s P = s := by
  induction P with
  | nil => intro s _; rfl
  | cons p rest ih =>
      intro s h
      cases p with
      | mk i d =>
          have step : alistUpd mergeDelta s i d = s :=
            alistUpd_get_self mergeDelta s i d (h (i, d) (by simp)) (mergeDelta_self d)
          simpa [enqueueTagPatch, step] using ih s (fun q hq => h q (by simp [hq]))

/-- C8: enqueuing the same key-nodup current-map patch twice within one
flush window and then flushing yields exactly the same final channel-state
map as enqueuing it once and flushing — the per-field last-write-wins
merge makes duplicate identical patches idempotent. -/
theorem c8_patch_idempotent (P : List (ℤ × TagDelta)) (S : List (ℤ × Tag))
    (now : ℤ) (locks : List (ℤ × ℤ)) (hnd : (P.map Prod.fst).Nodup) :
    flushPatchBatch now locks S (enqueueTagPatch (enqueueTagPatch [] P) P)
      = flushPatchBatch now locks S (enqueueTagPatch [] P) := by
  rw [enqueueTagPatch_nil P hnd,
    enqueueTagPatch_id P P (fun p hp => alistGet_of_nodup_mem P p hnd hp)]

/-- C8 witness: a concrete two-channel current-map patch flushed against
the empty state. -/
theorem c8_patch_idempotent_witness :
    flushPatchBatch 0 [] []
        (enqueueTagPatch
          (enqueueTagPatch []
            [((5 : ℤ), { cur1p := some 2 }), ((210 : ℤ), { cur3p := some (1, 2, 3) })])
          [((5 : ℤ), { cur1p := some 2 }), ((210 : ℤ), { cur3p := some (1, 2, 3) })])
      = flushPatchBatch 0 [] []
          (enqueueTagPatch []
            [((5 : ℤ), { cur1p := some 2 }), ((210 : ℤ), { cur3p := some (1, 2, 3) })]) :=
  c8_patch_idempotent
    [((5 : ℤ), { cur1p := some 2 }), ((210 : ℤ), { cur3p := some (1, 2, 3) })]
    [] 0 [] (by decide)

/-- C1: a finite single-phase current reading strictly in [-0.1, 0)
renders as "0.00" and (unlocked) derives status OFF; any reading ≥ 0
derives ON; while a toggle lock for the channel is active at flush time
the status field is left unchanged but the current field is still
updated.  The three-phase branch behaves the same with "any leg negative"
as the OFF test. -/
theorem c1_current_render (now : ℤ) (locks locksL : List (ℤ × ℤ)) (id : ℤ)
    (old : Tag) (v w a b c : ℚ)
    (hv1 : -(1 : ℚ) / 10 ≤ v) (hv2 : v < 0) (hw : 0 ≤ w)
    (ha : 0 ≤ a) (hb : 0 ≤ b) (hc : 0 ≤ c)
    (hu : ¬ now < lockGet locks id) (hl : now < lockGet locksL id) :
    formatCurrentA (some v) = "0.00" ∧
    (applyDelta now locks id old { cur1p := some v }).current = "0.00" ∧
    (applyDelta now locks id old { cur1p := some v }).status = "OFF" ∧
    (applyDelta now locks id old { cur1p := some w }).status = "ON" ∧
    (applyDelta now locks id old { cur1p := some w }).current = formatCurrentA (some w) ∧
    (applyDelta now locksL id old { cur1p := some w }).status = old.status ∧
    (applyDelta now locksL id old { cur1p := some w }).current = formatCurrentA (some w) ∧
    (applyDelta now locksL id old { cur1p := some v }).status = old.status ∧
    (applyDelta now locksL id old { cur1p := some v }).current = "0.00" ∧
    (applyDelta now locks id old { cur3p := some (v, a, b) }).status = "OFF" ∧
    (applyDelta now locks id old { cur3p := some (a, b, c) }).status = "ON" ∧
    (applyDelta now locksL id old { cur3p := some (a, b, c) }).status = old.status ∧
    (applyDelta now locksL id old { cur3p := some (a, b, c) }).current2
      = some (formatCurrentA (some b)) := by
  have hw' : ¬ w < 0 := not_lt.mpr hw
  have ha' : ¬ a < 0 := not_lt.mpr ha
  have hb' : ¬ b < 0 := not_lt.mpr hb
  have hc' : ¬ c < 0 := not_lt.mpr hc
  have hfv : formatCurrentA (some v) = "0.00" := by
    simp only [formatCurrentA]
    rw [if_pos ⟨hv2, hv1⟩]
  cases old
  refine ⟨hfv, ?_, ?_, ?_, ?_, ?_, ?_, ?_, ?_, ?_, ?_, ?_, ?_⟩ <;>
    simp [applyDelta, hu, hl, hv2, hw', ha', hb', hc', hfv]

/-- C1 witness: reading -0.05 on channel 7, unlocked and locked lock
tables. -/
theorem c1_current_render_witness :
    formatCurrentA (some (-(1 : ℚ) / 20)) = "0.00" ∧
    (applyDelta 0 [] 7 (default1P 7) { cur1p := some (-(1 : ℚ) / 20) }).current = "0.00" ∧
    (applyDelta 0 [] 7 (default1P 7) { cur1p := some (-(1 : ℚ) / 20) }).status = "OFF" ∧
    (applyDelta 0 [] 7 (default1P 7) { cur1p := some 3 }).status = "ON" ∧
    (applyDelta 0 [] 7 (default1P 7) { cur1p := some 3 }).current = formatCurrentA (some 3) ∧
    (applyDelta 0 [((7 : ℤ), (100 : ℤ))] 7 (default1P 7) { cur1p := some 3 }).status
      = (default1P 7).status ∧
    (applyDelta 0 [((7 : ℤ), (100 : ℤ))] 7 (default1P 7) { cur1p := some 3 }).current
      = formatCurrentA (some 3) ∧
    (applyDelta 0 [((7 : ℤ), (100 : ℤ))] 7 (default1P 7) { cur1p := some (-(1 : ℚ) / 20) }).status
      = (default1P 7).status ∧
    (applyDelta 0 [((7 : ℤ), (100 : ℤ))] 7 (default1P 7) { cur1p := some (-(1 : ℚ) / 20) }).current
      = "0.00" ∧
    (applyDelta 0 [] 7 (default1P 7) { cur3p := some (-(1 : ℚ) / 20, 1, 2) }).status = "OFF" ∧
    (applyDelta 0 [] 7 (default1P 7) { cur3p := some (1, 2, 5) }).status = "ON" ∧
    (applyDelta 0 [((7 : ℤ), (100 : ℤ))] 7 (default1P 7) { cur3p := some (1, 2, 5) }).status
      = (default1P 7).status ∧
    (applyDelta 0 [((7 : ℤ), (100 : ℤ))] 7 (default1P 7) { cur3p := some (1, 2, 5) }).current2
      = some (formatCurrentA (some 2)) :=
  c1_current_render 0 [] [((7 : ℤ), (100 : ℤ))] 7 (default1P 7)
    (-(1 : ℚ) / 20) 3 1 2 5
    (by norm_num) (by norm_num) (by norm_num) (by norm_num) (by norm_num) (by norm_num)
    (by decide) (by decide)

/-- C7 counterexample: the claim says the tuple form is accepted only for
three-phase ids and the scalar form only for single-phase ids; but the
decoder broadcasts a finite scalar on three-phase id 201 to all three
legs, and coerces an array on single-phase id 5 to its first element. -/
theorem c7_counterexample :
    decodeCurrentEntry "C201" (JVal.num (some 5)) = some (201, { cur3p := some (5, 5, 5) }) ∧
    decodeCurrentEntry "C5" (JVal.arr [JVal.num (some 3), JVal.num (some 2), JVal.num (some 1)])
      = some (5, { cur1p := some 3 }) :=
  ⟨rfl, rfl⟩

/-- C7 (amended): single-phase ids 1..120 accept exactly the finite
`normalizeNumber` coercion (scalar, numeric string, or first array
element; objects always give NaN and are dropped); three-phase ids
201..224 accept exactly `parse3PhaseValue` (finite scalar broadcast to
the three legs, arrays of length ≥ 3 and per-leg objects only when every
leg is finite); non-finite values are never applied. -/
theorem c7_decode_shapes (k1 k3 : String) (n1 n3 : ℕ) (v1 v3 x y z : JVal)
    (rest : List JVal) (fs : List (String × JVal)) (q : ℚ)
    (hk1 : matchChanKey k1 = some n1) (hr1 : 1 ≤ (n1 : ℤ) ∧ (n1 : ℤ) ≤ 120)
    (hk3 : matchChanKey k3 = some n3) (hr3 : 201 ≤ (n3 : ℤ) ∧ (n3 : ℤ) ≤ 224)
    (hznf : normalizeNumber z = none) :
    decodeCurrentEntry k1 v1
      = (normalizeNumber v1).map (fun r => ((n1 : ℤ), { cur1p := some r })) ∧
    decodeCurrentEntry k3 v3
      = (parse3PhaseValue v3).map (fun t => ((n3 : ℤ), { cur3p := some t })) ∧
    parse3PhaseValue (JVal.num (some q)) = some (q, q, q) ∧
    parse3PhaseValue (JVal.num none) = none ∧
    normalizeNumber (JVal.num none) = none ∧
    normalizeNumber (JVal.arr (x :: y :: rest)) = jsToNumber x ∧
    normalizeNumber (JVal.obj fs) = none ∧
    parse3PhaseValue (JVal.arr (z :: x :: y :: rest)) = none ∧
    parse3PhaseValue (JVal.arr (x :: z :: y :: rest)) = none ∧
    parse3PhaseValue (JVal.arr (x :: y :: z :: rest)) = none := by
  have hno : ¬(1 ≤ (n3 : ℤ) ∧ (n3 : ℤ) ≤ 120) := by omega
  refine ⟨?_, ?_, rfl, rfl, rfl, rfl, rfl, ?_, ?_, ?_⟩
  · simp only [decodeCurrentEntry, hk1]
    rw [if_pos hr1]
    cases hv : normalizeNumber v1 <;> simp [hv]
  · simp only [decodeCurrentEntry, hk3]
    rw [if_neg hno, if_pos hr3]
    cases hv : parse3PhaseValue v3 <;> simp [hv]
  · simp [parse3PhaseValue, hznf]
  · cases hx : normalizeNumber x <;> simp [parse3PhaseValue, hx, hznf]
  · cases hx : normalizeNumber x <;> cases hy : normalizeNumber y <;>
      simp [parse3PhaseValue, hx, hy, hznf]

/-- C7 witness: channel keys C17 and C201 with a finite scalar, a finite
pair of legs and a NaN leg. -/
theorem c7_decode_shapes_witness :
    decodeCurrentEntry "C17" (JVal.num (some 5))
      = (normalizeNumber (JVal.num (some 5))).map
          (fun r => (((17 : ℕ) : ℤ), { cur1p := some r })) ∧
    decodeCurrentEntry "C201" (JVal.num (some 7))
      = (parse3PhaseValue (JVal.num (some 7))).map
          (fun t => (((201 : ℕ) : ℤ), { cur3p := some t })) ∧
    parse3PhaseValue (JVal.num (some 5)) = some (5, 5, 5) ∧
    parse3PhaseValue (JVal.num none) = none ∧
    normalizeNumber (JVal.num none) = none ∧
    normalizeNumber (JVal.arr (JVal.num (some 1) :: JVal.num (some 2) :: []))
      = jsToNumber (JVal.num (some 1)) ∧
    normalizeNumber (JVal.obj []) = none ∧
    parse3PhaseValue (JVal.arr (JVal.num none :: JVal.num (some 1) :: JVal.num (some 2) :: []))
      = none ∧
    parse3PhaseValue (JVal.arr (JVal.num (some 1) :: JVal.num none :: JVal.num (some 2) :: []))
      = none ∧
    parse3PhaseValue (JVal.arr (JVal.num (some 1) :: JVal.num (some 2) :: JVal.num none :: []))
      = none :=
  c7_decode_shapes "C17" "C201" 17 201 (JVal.num (some 5)) (JVal.num (some 7))
    (JVal.num (some 1)) (JVal.num (some 2)) (JVal.num none) [] [] 5
    (by decide) (by decide) (by decide) (by decide) rfl

/-- A positional entry of a tags list (placeholder outside range). -/
def entryAt (l : List (ℤ × Tag)) (i : ℕ) : ℤ × Tag :=
  (l[i]?).getD (0, default1P 0)

/-- The reset applied by `clearTagsToUnknown` at one position. -/
theorem clearTags_entryAt (tags : List (ℤ × Tag)) (i : ℕ) (h : i < tags.length) :
    entryAt (clearTagsToUnknown tags) i =
      (if 201 ≤ (entryAt tags i).1 ∧ (entryAt tags i).1 ≤ 224 then
        ((entryAt tags i).1,
          { (entryAt tags i).2 with
              status := "UNKNOWN", current := "-",
              current1 := some "-", current2 := some "-", current3 := some "-",
              rawStatus := 0, seen := false })
      else
        ((entryAt tags i).1,
          { (entryAt tags i).2 with
              status := "UNKNOWN", current := "-", rawStatus := 0, seen := false })) := by
  unfold entryAt clearTagsToUnknown
  rw [List.getElem?_map, List.getElem?_eq_getElem h]
  rfl

/-- C10: resetting all channels to unknown touches only the fields
status, current (and the per-leg currents for ids 201..224), rawStatus
and seen of the entries already present; id, tagName, currentRating and
sensitivity are untouched, entries outside 201..224 keep their per-leg
current fields, and no entry is created or removed. -/
theorem c10_clear_frame (tags : List (ℤ × Tag)) (i j : ℕ)
    (hi : i < tags.length) (hj : j < tags.length)
    (hiOut : ¬(201 ≤ (entryAt tags i).1 ∧ (entryAt tags i).1 ≤ 224))
    (hjIn : 201 ≤ (entryAt tags j).1 ∧ (entryAt tags j).1 ≤ 224) :
    (clearTagsToUnknown tags).length = tags.length ∧
    (entryAt (clearTagsToUnknown tags) i).1 = (entryAt tags i).1 ∧
    (entryAt (clearTagsToUnknown tags) i).2.id = (entryAt tags i).2.id ∧
    (entryAt (clearTagsToUnknown tags) i).2.tagName = (entryAt tags i).2.tagName ∧
    (entryAt (clearTagsToUnknown tags) i).2.currentRating = (entryAt tags i).2.currentRating ∧
    (entryAt (clearTagsToUnknown tags) i).2.sensitivity = (entryAt tags i).2.sensitivity ∧
    (entryAt (clearTagsToUnknown tags) i).2.status = "UNKNOWN" ∧
    (entryAt (clearTagsToUnknown tags) i).2.current = "-" ∧
    (entryAt (clearTagsToUnknown tags) i).2.rawStatus = 0 ∧
    (entryAt (clearTagsToUnknown tags) i).2.seen = false ∧
    (entryAt (clearTagsToUnknown tags) i).2.current1 = (entryAt tags i).2.current1 ∧
    (entryAt (clearTagsToUnknown tags) i).2.current2 = (entryAt tags i).2.current2 ∧
    (entryAt (clearTagsToUnknown tags) i).2.current3 = (entryAt tags i).2.current3 ∧
    (entryAt (clearTagsToUnknown tags) j).1 = (entryAt tags j).1 ∧
    (entryAt (clearTagsToUnknown tags) j).2.id = (entryAt tags j).2.id ∧
    (entryAt (clearTagsToUnknown tags) j).2.tagName = (entryAt tags j).2.tagName ∧
    (entryAt (clearTagsToUnknown tags) j).2.currentRating = (entryAt tags j).2.currentRating ∧
    (entryAt (clearTagsToUnknown tags) j).2.sensitivity = (entryAt tags j).2.sensitivity ∧
    (entryAt (clearTagsToUnknown tags) j).2.status = "UNKNOWN" ∧
    (entryAt (clearTagsToUnknown tags) j).2.current = "-" ∧
    (entryAt (clearTagsToUnknown tags) j).2.rawStatus = 0 ∧
    (entryAt (clearTagsToUnknown tags) j).2.seen = false ∧
    (entryAt (clearTagsToUnknown tags) j).2.current1 = some "-" ∧
    (entryAt (clearTagsToUnknown tags) j).2.current2 = some "-" ∧
    (entryAt (clearTagsToUnknown tags) j).2.current3 = some "-" := by
  have hlen : (clearTagsToUnknown tags).length = tags.length := by
    simp [clearTagsToUnknown]
  have hei := clearTags_entryAt tags i hi
  have hej := clearTags_entryAt tags j hj
  rw [if_neg hiOut] at hei
  rw [if_pos hjIn] at hej
  refine ⟨hlen, ?_, ?_, ?_, ?_, ?_, ?_, ?_, ?_, ?_, ?_, ?_, ?_,
          ?_, ?_, ?_, ?_, ?_, ?_, ?_, ?_, ?_, ?_, ?_, ?_⟩ <;>
    simp [hei, hej]

/-- C10 witness: a two-entry state map holding channel 5 (single-phase)
and channel 210 (three-phase) with customized display fields. -/
theorem c10_clear_frame_witness :
    (clearTagsToUnknown
        [((5 : ℤ), { default1P 5 with tagName := "Pump", status := "ON", seen := true }),
         ((210 : ℤ), { default3P 210 with tagName := "Mill", status := "OFF", seen := true })]).length
      = 2 ∧
    (entryAt (clearTagsToUnknown
        [((5 : ℤ), { default1P 5 with tagName := "Pump", status := "ON", seen := true }),
         ((210 : ℤ), { default3P 210 with tagName := "Mill", status := "OFF", seen := true })]) 0).2.tagName
      = "Pump" ∧
    (entryAt (clearTagsToUnknown
        [((5 : ℤ), { default1P 5 with tagName := "Pump", status := "ON", seen := true }),
         ((210 : ℤ), { default3P 210 with tagName := "Mill", status := "OFF", seen := true })]) 0).2.status
      = "UNKNOWN" ∧
    (entryAt (clearTagsToUnknown
        [((5 : ℤ), { default1P 5 with tagName := "Pump", status := "ON", seen := true }),
         ((210 : ℤ), { default3P 210 with tagName := "Mill", status := "OFF", seen := true })]) 1).2.tagName
      = "Mill" ∧
    (entryAt (clearTagsToUnknown
        [((5 : ℤ), { default1P 5 with tagName := "Pump", status := "ON", seen := true }),
         ((210 : ℤ), { default3P 210 with tagName := "Mill", status := "OFF", seen := true })]) 1).2.current3
      = some "-" := by
  have h := c10_clear_frame
    [((5 : ℤ), { default1P 5 with tagName := "Pump", status := "ON", seen := true }),
     ((210 : ℤ), { default3P 210 with tagName := "Mill", status := "OFF", seen := true })]
    0 1 (by decide) (by decide) (by decide) (by decide)
  refine ⟨h.1, ?_, h.2.2.2.2.2.2.1, ?_, h.2.2.2.2.2.2.2.2.2.2.2.2.2.2.2.2.2.2.2.2.2.2.2.2⟩
  · rw [h.2.2.2.1]
    rfl
  · rw [h.2.2.2.2.2.2.2.2.2.2.2.2.2.2.2.1]
    rfl

/-- Setting a key makes lookup find the new value. -/
theorem alistGet_set_self {κ α : Type} [DecidableEq κ]
    (l : List (κ × α)) (k : κ) (v : α) : alistGet (alistSet l k v) k = some v := by
  induction l with
  | nil => simp [alistSet, alistGet]
  | cons p rest ih =>
      by_cases h : p.1 = k
      · cases p
        simp_all [alistSet, alistGet]
      · cases p
        simp_all [alistSet, alistGet]

/-- Lookup misses keys that are absent. -/
theorem alistGet_none_of_notmem {κ α : Type} [DecidableEq κ]
    (l : List (κ × α)) (k : κ) (h : k ∉ l.map Prod.fst) : alistGet l k = none := by
  induction l with
  | nil => rfl
  | cons p rest ih =>
      simp only [List.map_cons, List.mem_cons] at h
      push_neg at h
      cases p
      simp_all [alistGet, Ne.symm h.1]

/-- Deleting a key from a key-nodup list makes lookup miss it. -/
theorem alistGet_del_self {κ α : Type} [DecidableEq κ]
    (l : List (κ × α)) (k : κ) (hnd : (l.map Prod.fst).Nodup) :
    alistGet (alistDel l k) k = none := by
  induction l with
  | nil => rfl
  | cons p rest ih =>
      simp only [List.map_cons, List.nodup_cons] at hnd
      by_cases h : p.1 = k
      · cases p
        simp only [alistDel]
        rw [if_pos h]
        exact alistGet_none_of_notmem rest k (h ▸ hnd.1)
      · cases p
        simp only [alistDel] at *
        rw [if_neg h]
        simp only [alistGet]
        rw [if_neg h]
        exact ih hnd.2

/-- Setting a fresh key appends the entry. -/
theorem alistSet_fresh_append {κ α : Type} [DecidableEq κ]
    (l : List (κ × α)) (k : κ) (v : α) (h : alistGet l k = none) :
    alistSet l k v = l ++ [(k, v)] := by
  induction l with
  | nil => rfl
  | cons p rest ih =>
      cases p with
      | mk k0 w =>
          simp only [alistGet] at h
          by_cases hk : k0 = k
          · rw [if_pos hk] at h
            exact absurd h (by simp)
          · rw [if_neg hk] at h
            simp [alistSet, hk, ih h]

/-- C2 counterexample: issue a name write for channel 17 with value
"Pump A" at time 0, then deliver the inbound echo
`Set Name C17 = Pump A` at time 1000.  Contrary to the claim, the echo
clears neither the pending operation nor the lock (it re-arms the lock to
expire at 9000) and raises no confirmation toast. -/
theorem c2_counterexample :
    alistGet ((setNameEchoStep 1000 [("C17", "Pump A")]
        (publishSetNameStep 0 17 "Pump A" emptyNameOpState)).1).pendingName 17
      = some ("Pump A", 8000) ∧
    alistGet ((setNameEchoStep 1000 [("C17", "Pump A")]
        (publishSetNameStep 0 17 "Pump A" emptyNameOpState)).1).nameLock 17
      = some 9000 ∧
    ((setNameEchoStep 1000 [("C17", "Pump A")]
        (publishSetNameStep 0 17 "Pump A" emptyNameOpState)).1).toasts
      = ["Set Name C17"] := by
  refine ⟨?_, ?_, ?_⟩ <;> decide

/-- C2 (amended): issuing a name write records a pending operation and a
name lock expiring 8 s later; an inbound *name map* reporting the pending
value while the pending operation is unexpired clears both (lock set to 0)
and raises a confirmation; an inbound `Set Name` *echo* applies the name
and re-arms the name lock for 8 s without touching the pending operation;
when the 8.2 s timeout fires with the pending operation still present, it
is cleared, the lock is cleared, a timeout is raised and a name re-read
request is issued. -/
theorem c2_name_write_roundtrip
    (t0 t1 t2 : ℤ) (ch : ℕ) (rawName key v keyE vE : String)
    (pv p3 : String × ℤ) (s0 s1 s2 s3 : NameOpState)
    (hname : jsTrim rawName ≠ "")
    (hkey : matchChanKey key = some ch)
    (hpend : alistGet s1.pendingName (ch : ℤ) = some pv)
    (hnd1 : (s1.pendingName.map Prod.fst).Nodup)
    (hin : t1 ≤ pv.2)
    (hne : sanitizeName v ≠ "")
    (hnotdef : isDefaultDeviceName (sanitizeName v) = false)
    (hmatch : sanitizeName v = jsTrim pv.1)
    (hkeyE : matchChanKey keyE = some ch)
    (hneE : sanitizeName vE ≠ "")
    (hpend3 : alistGet s3.pendingName (ch : ℤ) = some p3)
    (hnd3 : (s3.pendingName.map Prod.fst).Nodup) :
    alistGet (publishSetNameStep t0 (ch : ℤ) rawName s0).pendingName (ch : ℤ)
      = some (jsTrim rawName, t0 + 8000) ∧
    alistGet (publishSetNameStep t0 (ch : ℤ) rawName s0).nameLock (ch : ℤ)
      = some (t0 + 8000) ∧
    alistGet (nameMapEntry t1 s1 key v).1.pendingName (ch : ℤ) = none ∧
    alistGet (nameMapEntry t1 s1 key v).1.nameLock (ch : ℤ) = some 0 ∧
    (nameMapEntry t1 s1 key v).1.toasts
      = s1.toasts ++ ["Name saved: C" ++ toString ((ch : ℕ) : ℤ)] ∧
    (nameMapEntry t1 s1 key v).2
      = some (((ch : ℕ) : ℤ), { tagName := some (sanitizeName v), seen := some true }) ∧
    (setNameEchoEntry t2 s2 keyE vE).1.pendingName = s2.pendingName ∧
    alistGet (setNameEchoEntry t2 s2 keyE vE).1.nameLock (ch : ℤ) = some (t2 + 8000) ∧
    (setNameEchoEntry t2 s2 keyE vE).2
      = some (((ch : ℕ) : ℤ), { tagName := some (sanitizeName vE), seen := some true }) ∧
    alistGet (nameTimeoutStep (ch : ℤ) s3).pendingName (ch : ℤ) = none ∧
    alistGet (nameTimeoutStep (ch : ℤ) s3).nameLock (ch : ℤ) = some 0 ∧
    (nameTimeoutStep (ch : ℤ) s3).toasts
      = s3.toasts ++ ["Name save timeout: C" ++ toString ((ch : ℕ) : ℤ)] ∧
    (nameTimeoutStep (ch : ℤ) s3).nameReads
      = s3.nameReads ++ [nameBankFor (ch : ℤ)] := by
  have hwrite :
      publishSetNameStep t0 (ch : ℤ) rawName s0 =
        { s0 with
            pendingName := alistSet s0.pendingName (ch : ℤ) (jsTrim rawName, t0 + 8000),
            nameLock := alistSet s0.nameLock (ch : ℤ) (t0 + 8000),
            pubs := s0.pubs ++ ["SetNameObjForm C" ++ toString (ch : ℤ),
                                "SetNameArrForm C" ++ toString (ch : ℤ)],
            toasts := s0.toasts ++ ["Set Name C" ++ toString (ch : ℤ)] } := by
    simp only [publishSetNameStep]
    rw [if_neg hname]
  have hmap :
      nameMapEntry t1 s1 key v =
        ({ s1 with
             pendingName := alistDel s1.pendingName (ch : ℤ),
             nameLock := alistSet s1.nameLock (ch : ℤ) 0,
             toasts := s1.toasts ++ ["Name saved: C" ++ toString ((ch : ℕ) : ℤ)] },
         some (((ch : ℕ) : ℤ), { tagName := some (sanitizeName v), seen := some true })) := by
    simp only [nameMapEntry, hkey, hpend, hnotdef]
    rw [if_neg hne]
    simp only [Bool.false_eq_true, if_false]
    rw [if_pos hin, if_pos hmatch]
  have hecho :
      setNameEchoEntry t2 s2 keyE vE =
        ({ s2 with nameLock := alistSet s2.nameLock (ch : ℤ) (t2 + 8000) },
         some (((ch : ℕ) : ℤ), { tagName := some (sanitizeName vE), seen := some true })) := by
    simp only [setNameEchoEntry, hkeyE]
    rw [if_neg hneE]
  have htimeout :
      nameTimeoutStep (ch : ℤ) s3 =
        { s3 with
            pendingName := alistDel s3.pendingName (ch : ℤ),
            nameLock := alistSet s3.nameLock (ch : ℤ) 0,
            toasts := s3.toasts ++ ["Name save timeout: C" ++ toString ((ch : ℕ) : ℤ)],
            nameReads := s3.nameReads ++ [nameBankFor (ch : ℤ)] } := by
    simp only [nameTimeoutStep, hpend3]
  refine ⟨?_, ?_, ?_, ?_, ?_, ?_, ?_, ?_, ?_, ?_, ?_, ?_, ?_⟩
  · rw [hwrite]; exact alistGet_set_self _ _ _
  · rw [hwrite]; exact alistGet_set_self _ _ _
  · rw [hmap]; exact alistGet_del_self _ _ hnd1
  · rw [hmap]; exact alistGet_set_self _ _ _
  · rw [hmap]
  · rw [hmap]
  · rw [hecho]
  · rw [hecho]; exact alistGet_set_self _ _ _
  · rw [hecho]
  · rw [htimeout]; exact alistGet_del_self _ _ hnd3
  · rw [htimeout]; exact alistGet_set_self _ _ _
  · rw [htimeout]
  · rw [htimeout]

/-- The state right after issuing the name write of channel 17, used to
instantiate the round-trip theorem. -/
def c2DemoState : NameOpState := publishSetNameStep 0 17 "Pump A" emptyNameOpState

/-- C2 witness: the concrete channel-17 "Pump A" round trip — the name
map confirms and clears the pending operation, and the timeout path
clears it when still present. -/
theorem c2_name_write_roundtrip_witness :
    alistGet (nameMapEntry 1000 c2DemoState "C17" "Pump A").1.pendingName ((17 : ℕ) : ℤ)
      = none ∧
    alistGet (nameMapEntry 1000 c2DemoState "C17" "Pump A").1.nameLock ((17 : ℕ) : ℤ)
      = some 0 ∧
    (nameMapEntry 1000 c2DemoState "C17" "Pump A").1.toasts
      = c2DemoState.toasts ++ ["Name saved: C" ++ toString ((17 : ℕ) : ℤ)] ∧
    alistGet (nameTimeoutStep ((17 : ℕ) : ℤ) c2DemoState).pendingName ((17 : ℕ) : ℤ)
      = none ∧
    (nameTimeoutStep ((17 : ℕ) : ℤ) c2DemoState).nameReads
      = c2DemoState.nameReads ++ [nameBankFor ((17 : ℕ) : ℤ)] := by
  have h := c2_name_write_roundtrip 0 1000 1000 17 "Pump A" "C17" "Pump A" "C17" "Pump A"
    ("Pump A", 8000) ("Pump A", 8000) emptyNameOpState c2DemoState c2DemoState c2DemoState
    (by decide) (by decide) (by decide) (by decide) (by decide) (by decide)
    (by decide) (by decide) (by decide) (by decide) (by decide) (by decide)
  exact ⟨h.2.2.1, h.2.2.2.1, h.2.2.2.2.1,
         h.2.2.2.2.2.2.2.2.2.1, h.2.2.2.2.2.2.2.2.2.2.2.2⟩

/-- C3 (code-bug exhibit): along three consecutive connection failures
with the backoff timer firing between them, the code schedules every
reconnect after 1000 ms — because `connectDevice` resets `retryCount` to 0
at the start of every attempt, the increment performed by the timer
callback is always erased — whereas the claimed sequence
`min(30s, 1s * 2^N)` would be 1000, 2000, 4000 ms. -/
theorem c3_backoff_code_bug :
    mgrDelays { retryCount := 0, reconnectTimer := none }
        [MgrEv.connectStart, MgrEv.connectFail, MgrEv.timerFire,
         MgrEv.connectStart, MgrEv.connectFail, MgrEv.timerFire,
         MgrEv.connectStart, MgrEv.connectFail]
      = [1000, 1000, 1000] ∧
    [1000, 1000, 1000] ≠ [backoffDelay 0, backoffDelay 1, backoffDelay 2] := by
  decide

/-- C4: a first attempt failing with a protocol-mismatch error on a
non-1883 port triggers exactly one retry with the opposite TLS flag and
the detected mode is returned on success; on port 1883 no flip occurs and
the original error propagates. -/
theorem c4_tls_autoflip (tryOnce tryOnce2 : Bool → Except String Unit)
    (port : ℤ) (inp inp2 : Option Bool) (e e2 : String)
    (hfail : tryOnce (initialTls port inp) = .error e)
    (hflip : shouldFlipTls e = true)
    (hport : port ≠ 1883)
    (hok : tryOnce (!initialTls port inp) = .ok ())
    (hfail2 : tryOnce2 (initialTls 1883 inp2) = .error e2) :
    (authenticateForAddDevice tryOnce port inp).1
      = [initialTls port inp, !initialTls port inp] ∧
    (authenticateForAddDevice tryOnce port inp).2 = .ok (!initialTls port inp) ∧
    (authenticateForAddDevice tryOnce2 1883 inp2).1 = [initialTls 1883 inp2] ∧
    (authenticateForAddDevice tryOnce2 1883 inp2).2 = .error e2 := by
  refine ⟨?_, ?_, ?_, ?_⟩ <;>
    simp [authenticateForAddDevice, hfail, hfail2, hport, hflip, hok]

/-- A probe whose TLS attempt fails with a handshake error and whose
plain attempt succeeds. -/
def authFlipDemo : Bool → Except String Unit :=
  fun b => if b then Except.error "SSLHANDSHAKE FAILURE" else Except.ok ()

/-- A probe that always fails with a non-mismatch error. -/
def authPlainDemo : Bool → Except String Unit :=
  fun _ => Except.error "connect failed (reasonCode=5)"

/-- C4 witness: port 8883 infers TLS, fails with a handshake error, flips
once to plain and succeeds; port 1883 propagates the original error. -/
theorem c4_tls_autoflip_witness :
    (authenticateForAddDevice authFlipDemo 8883 none).1
      = [initialTls 8883 none, !initialTls 8883 none] ∧
    (authenticateForAddDevice authFlipDemo 8883 none).2
      = .ok (!initialTls 8883 none) ∧
    (authenticateForAddDevice authPlainDemo 1883 none).1 = [initialTls 1883 none] ∧
    (authenticateForAddDevice authPlainDemo 1883 none).2
      = .error "connect failed (reasonCode=5)" :=
  c4_tls_autoflip authFlipDemo authPlainDemo 8883 none none
    "SSLHANDSHAKE FAILURE" "connect failed (reasonCode=5)"
    rfl (by decide) (by decide) rfl rfl

/-- C5: upon reaching Connected (the SUBSCRIBED callback) the fast-interval
command is sent exactly once — the `didSendFast` guard makes the immediate
send idempotent per connection — and the 58 s timer is armed; while
Connected each timer firing sends once and re-arms at 58 s; once the
session leaves Connected a firing sends nothing and cancels the timer, and
the explicit teardown cancels it too. -/
theorem c5_fast_interval (s t u : FastState)
    (h1 : s.didRequestCfg = false) (h2 : s.didSendFast = false)
    (h3 : t.didSendFast = true) (h4 : t.conn ≠ "connected")
    (h5 : u.conn = "connected") (h6 : u.fastTimer = some 58000) :
    (fastStep s .subscribedStatus).2 = 1 ∧
    (fastStep s .subscribedStatus).1.didSendFast = true ∧
    (fastStep s .subscribedStatus).1.fastTimer = some 58000 ∧
    (fastStep s .subscribedStatus).1.conn = "connected" ∧
    (fastStep t .subscribedStatus).2 = 0 ∧
    (fastStep u .fastTimerFire).2 = 1 ∧
    (fastStep u .fastTimerFire).1.fastTimer = some 58000 ∧
    (fastStep t .fastTimerFire).2 = 0 ∧
    (fastStep t .fastTimerFire).1.fastTimer = none ∧
    (fastStep t .screenDisconnect).1.fastTimer = none ∧
    (fastStep t .screenDisconnect).2 = 0 := by
  refine ⟨?_, ?_, ?_, ?_, ?_, ?_, ?_, ?_, ?_, ?_, ?_⟩
  · simp [fastStep, h1, h2]
  · simp [fastStep, h1, h2]
  · simp [fastStep, h1, h2]
  · simp [fastStep, h1, h2]
  · cases htrq : t.didRequestCfg <;> simp [fastStep, htrq, h3]
  · simp [fastStep, h5, h6]
  · simp [fastStep, h5, h6]
  · cases httm : t.fastTimer <;> simp [fastStep, httm, h4]
  · cases httm : t.fastTimer <;> simp [fastStep, httm, h4]
  · simp [fastStep]
  · simp [fastStep]

/-- C5 witness: a fresh connection, an already-served disconnected state
and a connected state with the timer armed. -/
theorem c5_fast_interval_witness :
    (fastStep { conn := "connecting", didRequestCfg := false, didSendFast := false,
                fastTimer := none } .subscribedStatus).2 = 1 ∧
    (fastStep { conn := "connecting", didRequestCfg := false, didSendFast := false,
                fastTimer := none } .subscribedStatus).1.didSendFast = true ∧
    (fastStep { conn := "connecting", didRequestCfg := false, didSendFast := false,
                fastTimer := none } .subscribedStatus).1.fastTimer = some 58000 ∧
    (fastStep { conn := "connecting", didRequestCfg := false, didSendFast := false,
                fastTimer := none } .subscribedStatus).1.conn = "connected" ∧
    (fastStep { conn := "disconnected", didRequestCfg := true, didSendFast := true,
                fastTimer := some 58000 } .subscribedStatus).2 = 0 ∧
    (fastStep { conn := "connected", didRequestCfg := true, didSendFast := true,
                fastTimer := some 58000 } .fastTimerFire).2 = 1 ∧
    (fastStep { conn := "connected", didRequestCfg := true, didSendFast := true,
                fastTimer := some 58000 } .fastTimerFire).1.fastTimer = some 58000 ∧
    (fastStep { conn := "disconnected", didRequestCfg := true, didSendFast := true,
                fastTimer := some 58000 } .fastTimerFire).2 = 0 ∧
    (fastStep { conn := "disconnected", didRequestCfg := true, didSendFast := true,
                fastTimer := some 58000 } .fastTimerFire).1.fastTimer = none ∧
    (fastStep { conn := "disconnected", didRequestCfg := true, didSendFast := true,
                fastTimer := some 58000 } .screenDisconnect).1.fastTimer = none ∧
    (fastStep { conn := "disconnected", didRequestCfg := true, didSendFast := true,
                fastTimer := some 58000 } .screenDisconnect).2 = 0 :=
  c5_fast_interval
    { conn := "connecting", didRequestCfg := false, didSendFast := false, fastTimer := none }
    { conn := "disconnected", didRequestCfg := true, didSendFast := true,
      fastTimer := some 58000 }
    { conn := "connected", didRequestCfg := true, didSendFast := true,
      fastTimer := some 58000 }
    (by decide) (by decide) (by decide) (by decide) (by decide) (by decide)

/-- C6: publish or subscribe while the session is not Connected performs
no transport action and queues nothing — the JS publishers return as
guarded no-ops, and the native module rejects with MQTT_NOT_CONNECTED. -/
theorem c6_not_connected_guard (conn tSlash payload topic : String)
    (q : ℤ) (qn : ℕ) (r : Bool) (client : Option NativeClientState)
    (hconn : conn ≠ "connected")
    (hcli : ∀ c : NativeClientState, client = some c → c.isConnected = false) :
    publishControl conn tSlash payload = none ∧
    publishCfg conn tSlash payload = none ∧
    publishWrite conn tSlash payload = none ∧
    nativeSubscribe client topic qn
      = NativeOutcome.rejected "MQTT_NOT_CONNECTED" "Client not connected" ∧
    nativePublish client topic payload q r
      = NativeOutcome.rejected "MQTT_NOT_CONNECTED" "Client not connected" := by
  refine ⟨?_, ?_, ?_, ?_, ?_⟩
  · simp [publishControl, hconn]
  · simp [publishCfg, hconn]
  · simp [publishWrite, hconn]
  · cases client with
    | none => rfl
    | some c => simp [nativeSubscribe, hcli c rfl]
  · cases client with
    | none => rfl
    | some c => simp [nativePublish, hcli c rfl]

/-- C6 witness: a connecting session and a native client that exists but
is not connected. -/
theorem c6_not_connected_guard_witness :
    publishControl "connecting" "devices/cp/dev/messages/events/" "p" = none ∧
    publishCfg "connecting" "devices/cp/dev/messages/events/" "p" = none ∧
    publishWrite "connecting" "devices/cp/dev/messages/events/" "p" = none ∧
    nativeSubscribe (some { isConnected := false }) "devices/cp/dev/messages/events/#" 0
      = NativeOutcome.rejected "MQTT_NOT_CONNECTED" "Client not connected" ∧
    nativePublish (some { isConnected := false }) "devices/cp/dev/messages/events/" "p" 1 false
      = NativeOutcome.rejected "MQTT_NOT_CONNECTED" "Client not connected" :=
  c6_not_connected_guard "connecting" "devices/cp/dev/messages/events/" "p"
    "devices/cp/dev/messages/events/#" 1 0 false (some { isConnected := false })
    (by decide) (fun c h => by cases h; rfl)

/-- C9: an inbound event carrying a registered session id is delivered to
exactly the instance registered under that id; an event carrying an
unknown id is dropped; an event carrying no id is delivered to the most
recently registered instance. -/
theorem c9_registry_routing {α : Type} (m mr : List (String × α))
    (k k2 kr : String) (v vr : α)
    (hk : k ≠ "") (hget : alistGet m k = some v)
    (hk2 : k2 ≠ "") (hnone : alistGet m k2 = none)
    (hfresh : alistGet mr kr = none) :
    routeEvent m (some k) = some v ∧
    routeEvent m (some k2) = none ∧
    routeEvent (registerClient mr kr vr) none = some vr := by
  refine ⟨?_, ?_, ?_⟩
  · simp [routeEvent, hk, hget]
  · simp [routeEvent, hk2, hnone]
  · rw [routeEvent, registerClient, alistSet_fresh_append mr kr vr hfresh]
    simp [getActiveInstance]

/-- C9 witness: two registered sessions, an unknown id, and a freshly
registered third session receiving the id-less event. -/
theorem c9_registry_routing_witness :
    routeEvent [("rn_1", 1), ("rn_2", 2)] (some "rn_1") = some 1 ∧
    routeEvent [("rn_1", 1), ("rn_2", 2)] (some "rn_9") = none ∧
    routeEvent (registerClient [("rn_1", (1 : ℕ)), ("rn_2", 2)] "rn_3" 3) none = some 3 :=
  c9_registry_routing [("rn_1", 1), ("rn_2", 2)] [("rn_1", 1), ("rn_2", 2)]
    "rn_1" "rn_9" "rn_3" 1 3
    (by decide) (by decide) (by decide) (by decide) (by decide)
